import Mathlib

/- Shallow embedding of flask-mosession (flask_mosession/__init__.py together
   with cache_backends.py): the MoSession entity with callback-driven dirty
   tracking, the cache-first load protocol, the write-through save protocol,
   destroy/regenerate, and the bounded reconnect loop of SessionStorage.

   Python dictionaries are embedded as insertion-ordered association lists;
   the MongoDB collection and the active cache backend are embedded as
   association lists keyed by the stringified session id.  Side effects on
   the stores and on the outgoing response are recorded as an event trace. -/

/-- Values stored in a session record: strings (session ids are
`Binary(str(uuid4()))`, embedded as the plain string), booleans
(the `_permanent` flag written by the Flask `SessionMixin.permanent`
setter), integers (application data), and datetimes (the `expire`
stamp, embedded as a Nat timestamp). -/
inductive SVal where
  | vStr : String → SVal
  | vBool : Bool → SVal
  | vInt : Int → SVal
  | vTime : Nat → SVal
deriving DecidableEq, Repr

/-- A session record: a Python dict embedded as an insertion-ordered
association list from string keys to values. -/
abbrev SRecord := List (String × SVal)

/-- Lookup in an association list (Python `d.get(k)` / `d[k]`). -/
def alGet? {α : Type} (m : List (String × α)) (k : String) : Option α :=
  match m with
  | [] => none
  | (k1, v) :: t => if k1 = k then some v else alGet? t k

/-- Insert-or-update in an association list (Python `d[k] = v`): an existing
key keeps its position and gets the new value, a fresh key is appended. -/
def alSet {α : Type} (m : List (String × α)) (k : String) (v : α) :
    List (String × α) :=
  match m with
  | [] => [(k, v)]
  | (k1, v1) :: t => if k1 = k then (k1, v) :: t else (k1, v1) :: alSet t k v

/-- Deletion from an association list (Python `del d[k]`, MongoDB `remove`,
cache `remove`/`delete`; removing an absent key is a no-op here, which is
what `collection.remove` and the cache backends do). -/
def alErase {α : Type} (m : List (String × α)) (k : String) :
    List (String × α) :=
  match m with
  | [] => []
  | (k1, v1) :: t => if k1 = k then alErase t k else (k1, v1) :: alErase t k

/-- Python `str()` on a stored value.  Session ids are `vStr` and `str` on
the Binary wrapper returns the underlying string. -/
def valueStr : SVal → String
  | SVal.vStr s => s
  | SVal.vBool b => if b then "True" else "False"
  | SVal.vInt n => toString n
  | SVal.vTime t => toString t

/-- Python truthiness of a stored value. -/
def SVal.truthy : SVal → Bool
  | SVal.vStr s => !(s == "")
  | SVal.vBool b => b
  | SVal.vInt n => !(n == 0)
  | SVal.vTime _ => true

/-- Python truthiness of an optional record (`if stored_session:` in
`load_session`): `None` and the empty dict are falsy. -/
def otruthy (o : Option SRecord) : Bool :=
  match o with
  | some r => !r.isEmpty
  | none => false

/-- Hex digit character, lower case, as produced by Python uuid
stringification. -/
def hexChar (n : Nat) : Char :=
  if n < 10 then Char.ofNat (48 + n) else Char.ofNat (87 + n)

/-- The 32 hex nibbles of a 128-bit value, most significant first. -/
def uuidNibbles (n : Nat) : List Char :=
  (List.range 32).map (fun i => hexChar (n / 16 ^ (31 - i) % 16))

/-- Modelled from the environment: `str(uuid.uuid4())`, the canonical
8-4-4-4-12 hyphenated form of a freshly drawn 128-bit random value `n`
(the version/variant bits of uuid4 are not tracked; they do not affect
any claim).  The draw itself is an oracle input threaded through the
operations that call `uuid4`. -/
def uuid4String (n : Nat) : String :=
  let cs := uuidNibbles n
  String.mk (cs.take 8 ++ '-' :: (cs.drop 8).take 4 ++ '-' ::
    (cs.drop 12).take 4 ++ '-' :: (cs.drop 16).take 4 ++ '-' :: cs.drop 20)

/-- The MoSession entity: a CallbackDict plus the SessionMixin flags.
`data` is the dict contents, `new` and `modified` are the flags
(SessionMixin class defaults: `new = False`, `modified = True`). -/
structure MoSession where
  data : SRecord
  new : Bool
  modified : Bool
deriving DecidableEq, Repr

/-- `session[k] = v`: the CallbackDict update callback `_on_update` sets
`modified = True` on every write. -/
def MoSession.setItem (s : MoSession) (k : String) (v : SVal) : MoSession :=
  { s with data := alSet s.data k v, modified := true }

/-- `session.clear()`: CallbackDict routes `clear` through the update
callback as well, so it also sets `modified = True`. -/
def MoSession.clear (s : MoSession) : MoSession :=
  { s with data := [], modified := true }

/-- The stringified session id of a record (`str(record[_id])`); a record
without an id field yields the empty string (in Python this would be a
KeyError; no protocol state reaches it). -/
def SRecord.sidOf (r : SRecord) : String :=
  match alGet? r "_id" with
  | some v => valueStr v
  | none => ""

/-- `session.sid`: `str(self[_id])`. -/
def MoSession.sid (s : MoSession) : String :=
  SRecord.sidOf s.data

/-- `generate_sid`: `self[_id] = Binary(str(uuid4()))`; the dict write
fires the update callback, so it marks the session modified. -/
def MoSession.generate_sid (s : MoSession) (n : Nat) : MoSession :=
  MoSession.setItem s "_id" (SVal.vStr (uuid4String n))

/-- `MoSession.__init__(initial)`: with a truthy `initial` the dict is
populated from it and `modified` is set to False (`new` stays at the
SessionMixin class default False); otherwise a fresh sid is generated and
`new` and `modified` are both set to True.  `n` is the uuid4 draw used
only on the fresh path. -/
def MoSession.init (initial : Option SRecord) (n : Nat) : MoSession :=
  if otruthy initial then
    { data := initial.getD [], new := false, modified := false }
  else
    let s0 : MoSession := { data := [], new := false, modified := true }
    let s1 := MoSession.generate_sid s0 n
    { s1 with new := true, modified := true }

/-- `session.permanent`: the Flask SessionMixin property reads
`self.get(_permanent, False)` and the guard in `get_expiration_time`
tests its truthiness. -/
def MoSession.permanent (s : MoSession) : Bool :=
  match alGet? s.data "_permanent" with
  | some v => SVal.truthy v
  | none => false

/-- The state of the two stores: the MongoDB sessions collection keyed by
session id, and the active cache backend keyed by the stringified id
(`NoCacheBackend` is the degenerate case where the cache map is always
empty and `set`/`remove` calls are dropped; the claims concern the calls
the protocol issues, recorded in the event trace, and the active-backend
state). -/
structure SessionEnv where
  store : List (String × SRecord)
  cache : List (String × SRecord)
deriving DecidableEq, Repr

/-- Observable side effects of the protocol, in issue order: cache reads
(`cache.get`), store point lookups (`collection.find_one`), cache writes
(`cache.set`), store upserts (`collection.save`), deletions on either
store, and the `response.set_cookie` instruction carrying the sid. -/
inductive SessionEvent where
  | cacheGet : String → Option SRecord → SessionEvent
  | storeFind : String → Option SRecord → SessionEvent
  | cacheSet : String → SRecord → SessionEvent
  | storeSave : SRecord → SessionEvent
  | cacheRemove : String → SessionEvent
  | storeRemove : String → SessionEvent
  | setCookie : String → SessionEvent
deriving DecidableEq, Repr

/-- Result of `load_session`: the updated stores, the optional session,
and the event trace. -/
structure LoadResult where
  env : SessionEnv
  session : Option MoSession
  trace : List SessionEvent
deriving DecidableEq, Repr

/-- Result of an operation that yields a session unconditionally
(`open_session`, `save_session`, `destroy`, `regenerate`). -/
structure OpResult where
  env : SessionEnv
  session : MoSession
  trace : List SessionEvent
deriving DecidableEq, Repr

/-- `MoSessionInterface.load_session(sid)`: skip everything on an empty
(falsy) sid; otherwise ask the cache first, fall back to
`collection.find_one` on a falsy cache answer, warm the cache when the
store returned a truthy record, and construct a session from a truthy
record (the uuid draw of `MoSession.init` is irrelevant here because the
fresh path is never taken: a truthy record is passed). -/
def load_session (env : SessionEnv) (sid : String) : LoadResult :=
  if sid = "" then
    { env := env, session := none, trace := [] }
  else
    let c := alGet? env.cache sid
    if otruthy c then
      { env := env, session := some (MoSession.init c 0),
        trace := [SessionEvent.cacheGet sid c] }
    else
      let f := alGet? env.store sid
      if otruthy f then
        { env := { env with cache := alSet env.cache sid (f.getD []) },
          session := some (MoSession.init f 0),
          trace := [SessionEvent.cacheGet sid c, SessionEvent.storeFind sid f,
                    SessionEvent.cacheSet sid (f.getD [])] }
      else
        { env := env, session := none,
          trace := [SessionEvent.cacheGet sid c, SessionEvent.storeFind sid f] }

/-- `MoSessionInterface.open_session`: load by the cookie-carried sid
(absent cookie becomes the empty string) and fall back to a fresh
session, drawing `n` for its uuid. -/
def open_session (env : SessionEnv) (cookieSid : String) (n : Nat) : OpResult :=
  let L := load_session env cookieSid
  match L.session with
  | some s => { env := L.env, session := s, trace := L.trace }
  | none => { env := L.env, session := MoSession.init none n, trace := L.trace }

/-- `MoSessionInterface.raw_save_session`: `dict_session = dict(session)`,
then `collection.save(dict_session)` (an upsert keyed by the `_id` field
of the record, which equals `session.sid`), then
`cache.set(session.sid, dict_session)`. -/
def raw_save_session (env : SessionEnv) (s : MoSession) :
    SessionEnv × List SessionEvent :=
  ({ store := alSet env.store (MoSession.sid s) s.data,
     cache := alSet env.cache (MoSession.sid s) s.data },
   [SessionEvent.storeSave s.data,
    SessionEvent.cacheSet (MoSession.sid s) s.data])

/-- Per-application configuration read by the save protocol. -/
structure MoConfig where
  expireAtBrowserClose : Bool
  permanentSessionLifetime : Nat
deriving DecidableEq, Repr

/-- `get_expire_at_browser_close`: `not SESSION_EXPIRE_AT_BROWSER_CLOSE`. -/
def get_expire_at_browser_close (cfg : MoConfig) : Bool :=
  !cfg.expireAtBrowserClose

/-- Flask `SessionInterface.get_expiration_time`: for a permanent session,
now plus the permanent session lifetime; otherwise None. -/
def get_expiration_time (cfg : MoConfig) (now : Nat) (s : MoSession) :
    Option Nat :=
  if MoSession.permanent s then some (now + cfg.permanentSessionLifetime)
  else none

/-- `MoSessionInterface.save_session`: a no-op unless `modified`.
Otherwise: `session.permanent = get_expire_at_browser_close(app)` (the
SessionMixin property setter writes the `_permanent` key into the dict),
compute the expiration, stamp `session[expire]` when the session is new
and an expiration was computed, persist through `raw_save_session`, on a
new session clear `new` and issue `set_cookie` with the sid, and finally
clear `modified`. -/
def save_session (cfg : MoConfig) (now : Nat) (env : SessionEnv)
    (s : MoSession) : OpResult :=
  if s.modified then
    let s1 := MoSession.setItem s "_permanent"
      (SVal.vBool (get_expire_at_browser_close cfg))
    let expire := get_expiration_time cfg now s1
    let s2 := match expire with
      | some t => if s1.new then MoSession.setItem s1 "expire" (SVal.vTime t)
                  else s1
      | none => s1
    let saved := raw_save_session env s2
    if s2.new then
      { env := saved.fst,
        session := { s2 with new := false, modified := false },
        trace := saved.snd ++ [SessionEvent.setCookie (MoSession.sid s2)] }
    else
      { env := saved.fst,
        session := { s2 with modified := false },
        trace := saved.snd }
  else
    { env := env, session := s, trace := [] }

/-- `MoSession.remove_stored_session`: `collection.remove` by the current
id, then `cache.remove` by the stringified id. -/
def MoSession.remove_stored_session (env : SessionEnv) (s : MoSession) :
    SessionEnv × List SessionEvent :=
  ({ store := alErase env.store (MoSession.sid s),
     cache := alErase env.cache (MoSession.sid s) },
   [SessionEvent.storeRemove (MoSession.sid s),
    SessionEvent.cacheRemove (MoSession.sid s)])

/-- `MoSession.destroy`: remove the stored record under the old id, clear
the dict (which fires the update callback), set `new = True` and generate
a fresh sid from the draw `n`. -/
def MoSession.destroy (env : SessionEnv) (s : MoSession) (n : Nat) : OpResult :=
  let removed := MoSession.remove_stored_session env s
  let s1 := MoSession.clear s
  let s2 : MoSession := { s1 with new := true }
  let s3 := MoSession.generate_sid s2 n
  { env := removed.fst, session := s3, trace := removed.snd }

/-- `MoSession.regenerate`: remove the stored record under the old id,
keep the data, set `new = True` and generate a fresh sid from the
draw `n`. -/
def MoSession.regenerate (env : SessionEnv) (s : MoSession) (n : Nat) :
    OpResult :=
  let removed := MoSession.remove_stored_session env s
  let s1 : MoSession := { s with new := true }
  let s2 := MoSession.generate_sid s1 n
  { env := removed.fst, session := s2, trace := removed.snd }

/-- The sids carried by the set-cookie instructions of a trace. -/
def setCookieSids (tr : List SessionEvent) : List String :=
  tr.filterMap (fun e => match e with
    | SessionEvent.setCookie sid => some sid
    | _ => none)

/-- Outcome of `SessionStorage.connect`: either a connection was
established (recording how many `Connection` attempts were made and how
many 100ms sleeps were taken) or `ConnectionFailure` was raised after the
attempt budget ran out. -/
inductive ConnectOutcome where
  | connected : Nat → Nat → ConnectOutcome
  | connectionFailure : Nat → Nat → ConnectOutcome
deriving DecidableEq, Repr

/-- The `for _connection_attempts in range(5)` loop body: attempt `i`
succeeds when `outcome i` is true; an `AutoReconnect` failure sleeps
100ms and moves on; exhausting the range reaches the `for`-`else` and
raises `ConnectionFailure`.  `att` and `slp` accumulate attempts and
sleeps. -/
def connectAttempts (outcome : Nat → Bool) :
    Nat → Nat → Nat → Nat → ConnectOutcome
  | _, 0, att, slp => ConnectOutcome.connectionFailure att slp
  | i, fuel + 1, att, slp =>
    if outcome i then ConnectOutcome.connected (att + 1) slp
    else connectAttempts outcome (i + 1) fuel (att + 1) (slp + 1)

/-- `SessionStorage.connect`: return immediately when a connection already
exists (zero attempts), otherwise run the 5-attempt loop.  `outcome i`
is the oracle telling whether the i-th `Connection(host, port)` attempt
raises `AutoReconnect` (false) or succeeds (true). -/
def SessionStorage.connect (alreadyConnected : Bool) (outcome : Nat → Bool) :
    ConnectOutcome :=
  if alreadyConnected then ConnectOutcome.connected 0 0
  else connectAttempts outcome 0 5 0 0

/-- Lookup after insert-or-update at the same key. -/
theorem alGet?_alSet_self {α : Type} (m : List (String × α)) (k : String)
    (v : α) : alGet? (alSet m k v) k = some v := by
  induction m with
  | nil => simp [alSet, alGet?]
  | cons hd t ih =>
    obtain ⟨k1, v1⟩ := hd
    by_cases hk : k1 = k
    · simp [alSet, alGet?, hk]
    · simp [alSet, alGet?, hk, ih]

/-- Lookup after insert-or-update at a different key. -/
theorem alGet?_alSet_ne {α : Type} (m : List (String × α)) (k q : String)
    (v : α) (h : k ≠ q) : alGet? (alSet m k v) q = alGet? m q := by
  induction m with
  | nil => simp [alSet, alGet?, h]
  | cons hd t ih =>
    obtain ⟨k1, v1⟩ := hd
    by_cases hk : k1 = k
    · subst hk
      simp [alSet, alGet?, h]
    · simp [alSet, alGet?, hk, ih]

/-- Lookup after erasing the same key. -/
theorem alGet?_alErase_self {α : Type} (m : List (String × α)) (k : String) :
    alGet? (alErase m k) k = none := by
  induction m with
  | nil => simp [alErase, alGet?]
  | cons hd t ih =>
    obtain ⟨k1, v1⟩ := hd
    by_cases hk : k1 = k
    · simp [alErase, alGet?, hk, ih]
    · simp [alErase, alGet?, hk, ih]

/-- Lookup after erasing a different key. -/
theorem alGet?_alErase_ne {α : Type} (m : List (String × α)) (k q : String)
    (h : k ≠ q) : alGet? (alErase m k) q = alGet? m q := by
  induction m with
  | nil => simp [alErase, alGet?]
  | cons hd t ih =>
    obtain ⟨k1, v1⟩ := hd
    by_cases hk : k1 = k
    · subst hk
      simp [alErase, alGet?, h, ih]
    · simp [alErase, alGet?, hk, ih]

/-- Writing a key other than the id leaves the sid unchanged. -/
theorem sidOf_alSet_ne (r : SRecord) (k : String) (v : SVal)
    (h : k ≠ "_id") : SRecord.sidOf (alSet r k v) = SRecord.sidOf r := by
  simp [SRecord.sidOf, alGet?_alSet_ne _ _ _ _ h]

/-- The permanent flag right after the SessionMixin setter wrote it. -/
theorem permanent_setItem (s : MoSession) (b : Bool) :
    MoSession.permanent (MoSession.setItem s "_permanent" (SVal.vBool b)) =
      b := by
  simp [MoSession.permanent, MoSession.setItem, alGet?_alSet_self, SVal.truthy]

/-- A uuid draw always stringifies to 32 nibbles. -/
theorem uuidNibbles_length (n : Nat) : (uuidNibbles n).length = 32 := by
  simp [uuidNibbles]

/-- A stringified uuid has the canonical length 36. -/
theorem uuid4String_length (n : Nat) : (uuid4String n).length = 36 := by
  have h := uuidNibbles_length n
  simp [uuid4String, String.length, h]

/-- A stringified uuid is never the empty string. -/
theorem uuid4String_ne_empty (n : Nat) : uuid4String n ≠ "" := by
  intro h
  have hl := uuid4String_length n
  rw [h] at hl
  simp at hl

/-- C1: for every session whose modified flag is false, save_session is a
complete no-op: the Durable Store and the Cache Backend are untouched, no
event (store write, cache write or set-cookie instruction) is issued, and
the session keeps its data and both flags. -/
theorem c1_unmodified_save_is_noop (cfg : MoConfig) (now : Nat)
    (env : SessionEnv) (s : MoSession) (h : s.modified = false) :
    save_session cfg now env s = { env := env, session := s, trace := [] } := by
  simp [save_session, h]

theorem c1_unmodified_save_is_noop_witness :
    (({ data := [("_id", SVal.vStr "X")], new := false, modified := false } :
        MoSession).modified = false)
    ∧ save_session
        { expireAtBrowserClose := true, permanentSessionLifetime := 0 } 0
        { store := [], cache := [] }
        { data := [("_id", SVal.vStr "X")], new := false, modified := false } =
      { env := { store := [], cache := [] },
        session := { data := [("_id", SVal.vStr "X")], new := false,
                     modified := false },
        trace := [] } :=
  ⟨rfl, c1_unmodified_save_is_noop _ _ _ _ rfl⟩

/-- C2: for every non-empty identifier the load protocol asks the Cache
Backend first; a cache hit (a record with at least one key, as every real
record has, since records carry their id field) is used with no Durable
Store query at all; on a cache miss the Durable Store is queried, a found
record is written into the Cache Backend, and the session built from a
found record is rehydrated with new = false and modified = false. -/
theorem c2_cache_then_store (env : SessionEnv) (sid : String) (r : SRecord)
    (hsid : sid ≠ "") :
    (load_session env sid).trace.head? =
      some (SessionEvent.cacheGet sid (alGet? env.cache sid))
    ∧ (alGet? env.cache sid = some r → r ≠ [] →
        load_session env sid =
          { env := env,
            session := some { data := r, new := false, modified := false },
            trace := [SessionEvent.cacheGet sid (some r)] })
    ∧ (alGet? env.cache sid = none → alGet? env.store sid = some r → r ≠ [] →
        load_session env sid =
          { env := { store := env.store, cache := alSet env.cache sid r },
            session := some { data := r, new := false, modified := false },
            trace := [SessionEvent.cacheGet sid none,
                      SessionEvent.storeFind sid (some r),
                      SessionEvent.cacheSet sid r] }) := by
  refine ⟨?_, ?_, ?_⟩
  · by_cases hc : otruthy (alGet? env.cache sid)
    · simp [load_session, hsid, hc]
    · by_cases hf : otruthy (alGet? env.store sid)
      · simp [load_session, hsid, hc, hf]
      · simp [load_session, hsid, hc, hf]
  · intro hc hr
    cases r with
    | nil => exact absurd rfl hr
    | cons a t =>
      have hct : otruthy (alGet? env.cache sid) = true := by
        simp [hc, otruthy]
      simp [load_session, hsid, hc, hct, MoSession.init, otruthy]
  · intro hc hs hr
    cases r with
    | nil => exact absurd rfl hr
    | cons a t =>
      have hcf : otruthy (alGet? env.cache sid) = false := by
        simp [hc, otruthy]
      have hst : otruthy (alGet? env.store sid) = true := by
        simp [hs, otruthy]
      simp [load_session, hsid, hc, hs, hcf, hst, MoSession.init, otruthy]

theorem c2_cache_then_store_witness :
    ("s" : String) ≠ ""
    ∧ load_session
        { store := [], cache := [("s", [("a", SVal.vInt 1)])] } "s" =
      { env := { store := [], cache := [("s", [("a", SVal.vInt 1)])] },
        session := some { data := [("a", SVal.vInt 1)], new := false,
                          modified := false },
        trace := [SessionEvent.cacheGet "s" (some [("a", SVal.vInt 1)])] }
    ∧ load_session
        { store := [("s", [("a", SVal.vInt 1)])], cache := [] } "s" =
      { env := { store := [("s", [("a", SVal.vInt 1)])],
                 cache := [("s", [("a", SVal.vInt 1)])] },
        session := some { data := [("a", SVal.vInt 1)], new := false,
                          modified := false },
        trace := [SessionEvent.cacheGet "s" none,
                  SessionEvent.storeFind "s" (some [("a", SVal.vInt 1)]),
                  SessionEvent.cacheSet "s" [("a", SVal.vInt 1)]] } := by
  refine ⟨by decide, ?_, ?_⟩
  · exact (c2_cache_then_store _ "s" [("a", SVal.vInt 1)]
      (by decide)).2.1 rfl (by decide)
  · exact (c2_cache_then_store _ "s" [("a", SVal.vInt 1)]
      (by decide)).2.2 rfl rfl (by decide)

/-- C3: an empty carried identifier makes load_session skip both the Cache
Backend and the Durable Store and return no session, and the fresh entity
open_session then constructs has a non-empty id and new = modified =
true. -/
theorem c3_empty_sid_fresh_session (env : SessionEnv) (n : Nat) :
    load_session env "" = { env := env, session := none, trace := [] }
    ∧ (open_session env "" n).env = env
    ∧ (open_session env "" n).trace = []
    ∧ MoSession.sid (open_session env "" n).session ≠ ""
    ∧ (open_session env "" n).session.new = true
    ∧ (open_session env "" n).session.modified = true := by
  refine ⟨by simp [load_session], ?_, ?_, ?_, ?_, ?_⟩
  · simp [open_session, load_session, MoSession.init, otruthy]
  · simp [open_session, load_session, MoSession.init, otruthy]
  · simp [open_session, load_session, MoSession.init, otruthy,
      MoSession.generate_sid, MoSession.setItem, MoSession.sid,
      SRecord.sidOf, alSet, alGet?, valueStr]
    exact uuid4String_ne_empty n
  · simp [open_session, load_session, MoSession.init, otruthy]
  · simp [open_session, load_session, MoSession.init, otruthy,
      MoSession.generate_sid, MoSession.setItem]

/-- C4 counterexample: a present-but-empty stored record is NOT treated as
found — the load protocol tests the record for Python truthiness, so with
the record of sid s being the empty dict the protocol reports no
session. -/
theorem c4_counterexample :
    (load_session { store := [("s", [])], cache := [] } "s").session =
      none := by decide

/-- C4 (amended): a lookup miss is an absent result, but the load protocol
distinguishes found records by truthiness, not by presence: a stored
record with no keys is treated exactly like a miss, while a stored record
with at least one key (every real record, since records carry their id
field) is treated as found and yields a rehydrated entity with new =
false and modified = false. -/
theorem c4_empty_record_is_miss (env : SessionEnv) (sid : String)
    (r : SRecord) (hsid : sid ≠ "") (hc : alGet? env.cache sid = none)
    (hs : alGet? env.store sid = some r) :
    (r = [] → (load_session env sid).session = none)
    ∧ (r ≠ [] → (load_session env sid).session =
        some { data := r, new := false, modified := false }) := by
  constructor
  · intro hr
    subst hr
    have hcf : otruthy (alGet? env.cache sid) = false := by
      simp [hc, otruthy]
    have hsf : otruthy (alGet? env.store sid) = false := by
      simp [hs, otruthy]
    simp [load_session, hsid, hcf, hsf]
  · intro hr
    cases r with
    | nil => exact absurd rfl hr
    | cons a t =>
      have hcf : otruthy (alGet? env.cache sid) = false := by
        simp [hc, otruthy]
      have hst : otruthy (alGet? env.store sid) = true := by
        simp [hs, otruthy]
      simp [load_session, hsid, hc, hcf, hst, hs, MoSession.init, otruthy]

theorem c4_empty_record_is_miss_witness :
    ("t" : String) ≠ ""
    ∧ (load_session { store := [("t", [])], cache := [] } "t").session = none
    ∧ (load_session { store := [("u", [("a", SVal.vInt 1)])], cache := [] }
        "u").session =
      some { data := [("a", SVal.vInt 1)], new := false, modified := false } := by
  refine ⟨by decide, ?_, ?_⟩
  · exact (c4_empty_record_is_miss
      { store := [("t", [])], cache := [] } "t" [] (by decide) rfl rfl).1 rfl
  · exact (c4_empty_record_is_miss
      { store := [("u", [("a", SVal.vInt 1)])], cache := [] } "u"
      [("a", SVal.vInt 1)] (by decide) rfl rfl).2 (by decide)

/-- Characterization of save_session on a modified session: a single
record d — the session dict at persist time — is upserted into the
Durable Store and written to the Cache Backend under its sid, the session
ends not-new and not-modified with data d, the set-cookie instruction is
issued exactly when the session was new, and d relates to the incoming
data as the save protocol prescribes. -/
theorem save_session_modified_spec (cfg : MoConfig) (now : Nat)
    (env : SessionEnv) (s : MoSession) (h : s.modified = true) :
    ∃ d : SRecord,
      save_session cfg now env s =
        { env := { store := alSet env.store (SRecord.sidOf d) d,
                   cache := alSet env.cache (SRecord.sidOf d) d },
          session := { data := d, new := false, modified := false },
          trace := SessionEvent.storeSave d ::
                   SessionEvent.cacheSet (SRecord.sidOf d) d ::
                   (if s.new then [SessionEvent.setCookie (SRecord.sidOf d)]
                    else []) }
      ∧ SRecord.sidOf d = MoSession.sid s
      ∧ alGet? d "_id" = alGet? s.data "_id"
      ∧ (∀ k, k ≠ "_permanent" → k ≠ "expire" →
          alGet? d k = alGet? s.data k)
      ∧ alGet? d "expire" =
          (if s.new = true ∧ cfg.expireAtBrowserClose = false
           then some (SVal.vTime (now + cfg.permanentSessionLifetime))
           else alGet? s.data "expire")
      ∧ alGet? d "_permanent" =
          some (SVal.vBool (!cfg.expireAtBrowserClose)) := by
  cases hb : cfg.expireAtBrowserClose with
  | true =>
    refine ⟨alSet s.data "_permanent" (SVal.vBool false), ?_, ?_, ?_, ?_, ?_, ?_⟩
    · cases hn : s.new with
      | true =>
        simp [save_session, h, hb, hn, get_expire_at_browser_close,
          get_expiration_time, MoSession.permanent, MoSession.setItem,
          MoSession.sid, SRecord.sidOf, raw_save_session,
          alGet?_alSet_self, alGet?_alSet_ne, SVal.truthy]
      | false =>
        simp [save_session, h, hb, hn, get_expire_at_browser_close,
          get_expiration_time, MoSession.permanent, MoSession.setItem,
          MoSession.sid, SRecord.sidOf, raw_save_session,
          alGet?_alSet_self, alGet?_alSet_ne, SVal.truthy]
    · simp [MoSession.sid, sidOf_alSet_ne]
    · simp [alGet?_alSet_ne]
    · intro k h1 h2
      rw [alGet?_alSet_ne _ _ _ _ (Ne.symm h1)]
    · simp [alGet?_alSet_ne, hb]
    · simp [alGet?_alSet_self, hb]
  | false =>
    cases hn : s.new with
    | true =>
      refine ⟨alSet (alSet s.data "_permanent" (SVal.vBool true)) "expire"
        (SVal.vTime (now + cfg.permanentSessionLifetime)),
        ?_, ?_, ?_, ?_, ?_, ?_⟩
      · simp [save_session, h, hb, hn, get_expire_at_browser_close,
          get_expiration_time, MoSession.permanent, MoSession.setItem,
          MoSession.sid, SRecord.sidOf, raw_save_session,
          alGet?_alSet_self, alGet?_alSet_ne, SVal.truthy]
      · simp [MoSession.sid, sidOf_alSet_ne]
      · simp [alGet?_alSet_ne]
      · intro k h1 h2
        rw [alGet?_alSet_ne _ _ _ _ (Ne.symm h2),
          alGet?_alSet_ne _ _ _ _ (Ne.symm h1)]
      · simp [alGet?_alSet_self, hb, hn]
      · simp [alGet?_alSet_self, alGet?_alSet_ne, hb]
    | false =>
      refine ⟨alSet s.data "_permanent" (SVal.vBool true), ?_, ?_, ?_, ?_, ?_, ?_⟩
      · simp [save_session, h, hb, hn, get_expire_at_browser_close,
          get_expiration_time, MoSession.permanent, MoSession.setItem,
          MoSession.sid, SRecord.sidOf, raw_save_session,
          alGet?_alSet_self, alGet?_alSet_ne, SVal.truthy]
      · simp [MoSession.sid, sidOf_alSet_ne]
      · simp [alGet?_alSet_ne]
      · intro k h1 h2
        rw [alGet?_alSet_ne _ _ _ _ (Ne.symm h1)]
      · simp [alGet?_alSet_ne, hn]
      · simp [alGet?_alSet_self, hb]

/-- C5: saving a modified session persists one record — the full session
dict, id field included — by upserting it into the Durable Store first
and then writing the same record to the Cache Backend; afterwards both
stores hold a record equal to the current session data and the modified
flag is false. -/
theorem c5_write_through (cfg : MoConfig) (now : Nat) (env : SessionEnv)
    (s : MoSession) (iv : SVal) (h : s.modified = true)
    (hid : alGet? s.data "_id" = some iv) :
    (∃ rest, (save_session cfg now env s).trace =
        SessionEvent.storeSave (save_session cfg now env s).session.data ::
        SessionEvent.cacheSet
          (MoSession.sid (save_session cfg now env s).session)
          (save_session cfg now env s).session.data :: rest)
    ∧ alGet? (save_session cfg now env s).env.store
        (MoSession.sid (save_session cfg now env s).session) =
      some (save_session cfg now env s).session.data
    ∧ alGet? (save_session cfg now env s).env.cache
        (MoSession.sid (save_session cfg now env s).session) =
      some (save_session cfg now env s).session.data
    ∧ alGet? (save_session cfg now env s).session.data "_id" = some iv
    ∧ (save_session cfg now env s).session.modified = false := by
  obtain ⟨d, heq, hsd, hid2, hframe, hexp, hperm⟩ :=
    save_session_modified_spec cfg now env s h
  rw [heq]
  refine ⟨⟨_, rfl⟩, ?_, ?_, ?_, rfl⟩
  · simp [MoSession.sid, alGet?_alSet_self]
  · simp [MoSession.sid, alGet?_alSet_self]
  · show alGet? d "_id" = some iv
    rw [hid2]
    exact hid

theorem c5_write_through_witness :
    (({ data := [("_id", SVal.vStr "X"), ("a", SVal.vInt 1)], new := false,
        modified := true } : MoSession).modified = true)
    ∧ alGet? [("_id", SVal.vStr "X"), ("a", SVal.vInt 1)] "_id" =
        some (SVal.vStr "X")
    ∧ alGet?
        (save_session
          { expireAtBrowserClose := true, permanentSessionLifetime := 0 } 0
          { store := [], cache := [] }
          { data := [("_id", SVal.vStr "X"), ("a", SVal.vInt 1)], new := false,
            modified := true }).env.store
        (MoSession.sid
          (save_session
            { expireAtBrowserClose := true, permanentSessionLifetime := 0 } 0
            { store := [], cache := [] }
            { data := [("_id", SVal.vStr "X"), ("a", SVal.vInt 1)],
              new := false, modified := true }).session) =
      some
        (save_session
          { expireAtBrowserClose := true, permanentSessionLifetime := 0 } 0
          { store := [], cache := [] }
          { data := [("_id", SVal.vStr "X"), ("a", SVal.vInt 1)], new := false,
            modified := true }).session.data
    ∧ (save_session
        { expireAtBrowserClose := true, permanentSessionLifetime := 0 } 0
        { store := [], cache := [] }
        { data := [("_id", SVal.vStr "X"), ("a", SVal.vInt 1)], new := false,
          modified := true }).session.modified = false := by
  refine ⟨rfl, by decide, ?_, ?_⟩
  · exact (c5_write_through _ _ _ _ (SVal.vStr "X") rfl (by decide)).2.1
  · exact (c5_write_through _ _ _ _ (SVal.vStr "X") rfl (by decide)).2.2.2.2

/-- C6: saving a modified new session issues exactly one set-cookie
instruction, carrying the sid of the session, and flips the new flag to
false; saving a modified not-new session issues no set-cookie
instruction. -/
theorem c6_new_session_cookie (cfg : MoConfig) (now : Nat) (env : SessionEnv)
    (s : MoSession) (h : s.modified = true) :
    (s.new = true →
      setCookieSids (save_session cfg now env s).trace =
        [MoSession.sid (save_session cfg now env s).session]
      ∧ (save_session cfg now env s).session.new = false)
    ∧ (s.new = false →
      setCookieSids (save_session cfg now env s).trace = []) := by
  obtain ⟨d, heq, hsd, hid2, hframe, hexp, hperm⟩ :=
    save_session_modified_spec cfg now env s h
  rw [heq]
  constructor
  · intro hn
    simp [hn, setCookieSids, MoSession.sid]
  · intro hn
    simp [hn, setCookieSids]

theorem c6_new_session_cookie_witness :
    (({ data := [("_id", SVal.vStr "X")], new := true, modified := true } :
        MoSession).modified = true)
    ∧ setCookieSids
        (save_session
          { expireAtBrowserClose := true, permanentSessionLifetime := 0 } 0
          { store := [], cache := [] }
          { data := [("_id", SVal.vStr "X")], new := true,
            modified := true }).trace =
      [MoSession.sid
        (save_session
          { expireAtBrowserClose := true, permanentSessionLifetime := 0 } 0
          { store := [], cache := [] }
          { data := [("_id", SVal.vStr "X")], new := true,
            modified := true }).session]
    ∧ setCookieSids
        (save_session
          { expireAtBrowserClose := true, permanentSessionLifetime := 0 } 0
          { store := [], cache := [] }
          { data := [("_id", SVal.vStr "Y")], new := false,
            modified := true }).trace = [] := by
  refine ⟨rfl, ?_, ?_⟩
  · exact ((c6_new_session_cookie _ _ _ _ rfl).1 rfl).1
  · exact (c6_new_session_cookie _ _ _ _ rfl).2 rfl

/-- C7: during a save of a modified session the expire field is stamped
into the data exactly when the session is new and the computed expiration
is not None, the stamp happens before persisting (the persisted record —
the head store-save event — carries it), and a save of a not-new session
leaves the expire field exactly as it was. -/
theorem c7_expire_stamp (cfg : MoConfig) (now : Nat) (env : SessionEnv)
    (s : MoSession) (h : s.modified = true) :
    (∀ t : Nat, s.new = true →
      get_expiration_time cfg now (MoSession.setItem s "_permanent"
        (SVal.vBool (get_expire_at_browser_close cfg))) = some t →
      alGet? (save_session cfg now env s).session.data "expire" =
        some (SVal.vTime t))
    ∧ (s.new = false →
      alGet? (save_session cfg now env s).session.data "expire" =
        alGet? s.data "expire")
    ∧ (get_expiration_time cfg now (MoSession.setItem s "_permanent"
        (SVal.vBool (get_expire_at_browser_close cfg))) = none →
      alGet? (save_session cfg now env s).session.data "expire" =
        alGet? s.data "expire")
    ∧ (save_session cfg now env s).trace.head? =
      some (SessionEvent.storeSave
        (save_session cfg now env s).session.data) := by
  obtain ⟨d, heq, hsd, hid2, hframe, hexp, hperm⟩ :=
    save_session_modified_spec cfg now env s h
  have hget : get_expiration_time cfg now (MoSession.setItem s "_permanent"
      (SVal.vBool (get_expire_at_browser_close cfg))) =
      if cfg.expireAtBrowserClose = false
      then some (now + cfg.permanentSessionLifetime) else none := by
    cases hb : cfg.expireAtBrowserClose <;>
      simp [get_expiration_time, permanent_setItem,
        get_expire_at_browser_close, hb]
  rw [heq]
  refine ⟨?_, ?_, ?_, rfl⟩
  · intro t hn hsome
    rw [hget] at hsome
    by_cases hb : cfg.expireAtBrowserClose = false
    · rw [if_pos hb] at hsome
      have ht := Option.some.inj hsome
      subst ht
      show alGet? d "expire" = _
      rw [hexp, if_pos ⟨hn, hb⟩]
    · rw [if_neg hb] at hsome
      exact absurd hsome (by simp)
  · intro hn
    show alGet? d "expire" = _
    rw [hexp]
    simp [hn]
  · intro hnone
    rw [hget] at hnone
    by_cases hb : cfg.expireAtBrowserClose = false
    · rw [if_pos hb] at hnone
      exact absurd hnone (by simp)
    · show alGet? d "expire" = _
      rw [hexp, if_neg]
      intro hcontra
      exact hb hcontra.2

theorem c7_expire_stamp_witness :
    (({ data := [("_id", SVal.vStr "X")], new := true, modified := true } :
        MoSession).modified = true)
    ∧ alGet?
        (save_session
          { expireAtBrowserClose := false, permanentSessionLifetime := 100 } 5
          { store := [], cache := [] }
          { data := [("_id", SVal.vStr "X")], new := true,
            modified := true }).session.data "expire" =
      some (SVal.vTime 105) :=
  ⟨rfl, (c7_expire_stamp _ _ _ _ rfl).1 105 rfl (by decide)⟩

/-- C8: if every connection attempt raises the transient AutoReconnect
error, the connect loop makes exactly 5 attempts, sleeps 100ms after each
failure, and then raises ConnectionFailure; a successful attempt within
the 5-attempt budget stops the loop at once with no error, having made
one attempt per preceding failure plus the successful one. -/
theorem c8_bounded_reconnect (outcome : Nat → Bool) (k : Nat) :
    ((∀ i, i < 5 → outcome i = false) →
      SessionStorage.connect false outcome =
        ConnectOutcome.connectionFailure 5 5)
    ∧ (k < 5 → (∀ j, j < k → outcome j = false) → outcome k = true →
      SessionStorage.connect false outcome =
        ConnectOutcome.connected (k + 1) k) := by
  constructor
  · intro hf
    simp [SessionStorage.connect, connectAttempts, hf 0 (by omega),
      hf 1 (by omega), hf 2 (by omega), hf 3 (by omega), hf 4 (by omega)]
  · intro hk h1 h2
    interval_cases k
    · simp [SessionStorage.connect, connectAttempts, h2]
    · simp [SessionStorage.connect, connectAttempts, h1 0 (by omega), h2]
    · simp [SessionStorage.connect, connectAttempts, h1 0 (by omega),
        h1 1 (by omega), h2]
    · simp [SessionStorage.connect, connectAttempts, h1 0 (by omega),
        h1 1 (by omega), h1 2 (by omega), h2]
    · simp [SessionStorage.connect, connectAttempts, h1 0 (by omega),
        h1 1 (by omega), h1 2 (by omega), h1 3 (by omega), h2]

theorem c8_bounded_reconnect_witness :
    SessionStorage.connect false (fun _ => false) =
      ConnectOutcome.connectionFailure 5 5
    ∧ SessionStorage.connect false (fun i => decide (i = 2)) =
      ConnectOutcome.connected 3 2 := by
  constructor
  · exact (c8_bounded_reconnect (fun _ => false) 0).1 (fun i _ => rfl)
  · exact (c8_bounded_reconnect (fun i => decide (i = 2)) 2).2 (by omega)
      (fun j hj => by interval_cases j <;> rfl) (by decide)

/-- C9: regenerate removes the record stored under the old id from both
the Durable Store and the Cache Backend, assigns a fresh id — different
from the old one whenever the 128-bit uuid draw differs from the old id,
which uuid4 guarantees statistically — sets new = true, and every data
key other than the id field keeps its previous value. -/
theorem c9_regenerate (env : SessionEnv) (s : MoSession) (n : Nat)
    (hne : uuid4String n ≠ MoSession.sid s) :
    MoSession.sid (MoSession.regenerate env s n).session = uuid4String n
    ∧ MoSession.sid (MoSession.regenerate env s n).session ≠ MoSession.sid s
    ∧ (MoSession.regenerate env s n).session.new = true
    ∧ (∀ k, k ≠ "_id" →
        alGet? (MoSession.regenerate env s n).session.data k =
          alGet? s.data k)
    ∧ alGet? (MoSession.regenerate env s n).env.store (MoSession.sid s) =
        none
    ∧ alGet? (MoSession.regenerate env s n).env.cache (MoSession.sid s) =
        none := by
  have hsid : MoSession.sid (MoSession.regenerate env s n).session =
      uuid4String n := by
    simp [MoSession.regenerate, MoSession.remove_stored_session,
      MoSession.generate_sid, MoSession.setItem, MoSession.sid,
      SRecord.sidOf, alGet?_alSet_self, valueStr]
  refine ⟨hsid, ?_, rfl, ?_, ?_, ?_⟩
  · rw [hsid]
    exact hne
  · intro k hk
    show alGet? (alSet s.data "_id" (SVal.vStr (uuid4String n))) k =
      alGet? s.data k
    exact alGet?_alSet_ne _ _ _ _ (Ne.symm hk)
  · exact alGet?_alErase_self _ _
  · exact alGet?_alErase_self _ _

theorem c9_regenerate_witness :
    uuid4String 0 ≠
      MoSession.sid { data := [("_id", SVal.vStr "X"), ("a", SVal.vInt 1)],
                      new := false, modified := false }
    ∧ MoSession.sid
        (MoSession.regenerate
          { store := [("X", [("_id", SVal.vStr "X"), ("a", SVal.vInt 1)])],
            cache := [("X", [("_id", SVal.vStr "X"), ("a", SVal.vInt 1)])] }
          { data := [("_id", SVal.vStr "X"), ("a", SVal.vInt 1)],
            new := false, modified := false } 0).session = uuid4String 0
    ∧ (MoSession.regenerate
          { store := [("X", [("_id", SVal.vStr "X"), ("a", SVal.vInt 1)])],
            cache := [("X", [("_id", SVal.vStr "X"), ("a", SVal.vInt 1)])] }
          { data := [("_id", SVal.vStr "X"), ("a", SVal.vInt 1)],
            new := false, modified := false } 0).session.new = true
    ∧ alGet?
        (MoSession.regenerate
          { store := [("X", [("_id", SVal.vStr "X"), ("a", SVal.vInt 1)])],
            cache := [("X", [("_id", SVal.vStr "X"), ("a", SVal.vInt 1)])] }
          { data := [("_id", SVal.vStr "X"), ("a", SVal.vInt 1)],
            new := false, modified := false } 0).session.data "a" =
      alGet? [("_id", SVal.vStr "X"), ("a", SVal.vInt 1)] "a"
    ∧ alGet?
        (MoSession.regenerate
          { store := [("X", [("_id", SVal.vStr "X"), ("a", SVal.vInt 1)])],
            cache := [("X", [("_id", SVal.vStr "X"), ("a", SVal.vInt 1)])] }
          { data := [("_id", SVal.vStr "X"), ("a", SVal.vInt 1)],
            new := false, modified := false } 0).env.store
        (MoSession.sid { data := [("_id", SVal.vStr "X"), ("a", SVal.vInt 1)],
                         new := false, modified := false }) = none := by
  refine ⟨by decide, ?_, ?_, ?_, ?_⟩
  · exact (c9_regenerate _ _ 0 (by decide)).1
  · exact (c9_regenerate _ _ 0 (by decide)).2.2.1
  · exact (c9_regenerate _ _ 0 (by decide)).2.2.2.1 "a" (by decide)
  · exact (c9_regenerate _ _ 0 (by decide)).2.2.2.2.1

/-- C10 counterexample: a save right after destroy does not persist a
record holding only the new id — the save protocol first routes
session.permanent through the SessionMixin property setter, which writes
the _permanent key into the dict, so the persisted record carries the
_permanent flag besides the id. -/
theorem c10_counterexample :
    (save_session
      { expireAtBrowserClose := true, permanentSessionLifetime := 0 } 0
      (MoSession.destroy { store := [], cache := [] }
        { data := [("_id", SVal.vStr "X")], new := false, modified := false }
        0).env
      (MoSession.destroy { store := [], cache := [] }
        { data := [("_id", SVal.vStr "X")], new := false, modified := false }
        0).session).session.data =
    [("_id", SVal.vStr (uuid4String 0)),
     ("_permanent", SVal.vBool false)] := rfl

/-- C10 (amended): after destroy the session data holds exactly one key —
the freshly generated id — with new = true and modified = true (both the
clear and the id write fire the dirty callback); a save invoked
immediately afterwards with no further mutation is NOT a no-op: under the
default expire-at-browser-close configuration it writes a record
consisting of the new id together with the _permanent flag, which the
save protocol itself stamps into the dict, to both the Durable Store and
the Cache Backend, and issues exactly one set-cookie instruction carrying
the new id. -/
theorem c10_destroy_then_save (cfg : MoConfig) (now : Nat)
    (env : SessionEnv) (s : MoSession) (n : Nat)
    (hclose : cfg.expireAtBrowserClose = true) :
    (MoSession.destroy env s n).session.data =
      [("_id", SVal.vStr (uuid4String n))]
    ∧ (MoSession.destroy env s n).session.new = true
    ∧ (MoSession.destroy env s n).session.modified = true
    ∧ (save_session cfg now (MoSession.destroy env s n).env
        (MoSession.destroy env s n).session).session.data =
      [("_id", SVal.vStr (uuid4String n)),
       ("_permanent", SVal.vBool false)]
    ∧ alGet? (save_session cfg now (MoSession.destroy env s n).env
        (MoSession.destroy env s n).session).env.store (uuid4String n) =
      some [("_id", SVal.vStr (uuid4String n)),
            ("_permanent", SVal.vBool false)]
    ∧ alGet? (save_session cfg now (MoSession.destroy env s n).env
        (MoSession.destroy env s n).session).env.cache (uuid4String n) =
      some [("_id", SVal.vStr (uuid4String n)),
            ("_permanent", SVal.vBool false)]
    ∧ setCookieSids (save_session cfg now (MoSession.destroy env s n).env
        (MoSession.destroy env s n).session).trace = [uuid4String n] := by
  refine ⟨rfl, rfl, rfl, ?_, ?_, ?_, ?_⟩ <;>
    simp [save_session, MoSession.destroy, MoSession.clear,
      MoSession.remove_stored_session, MoSession.generate_sid,
      MoSession.setItem, MoSession.sid, SRecord.sidOf, raw_save_session,
      get_expire_at_browser_close, get_expiration_time, MoSession.permanent,
      alGet?, alSet, valueStr, SVal.truthy, setCookieSids, hclose,
      alGet?_alSet_self]

theorem c10_destroy_then_save_witness :
    (({ expireAtBrowserClose := true, permanentSessionLifetime := 0 } :
        MoConfig).expireAtBrowserClose = true)
    ∧ (MoSession.destroy { store := [], cache := [] }
        { data := [("_id", SVal.vStr "Y"), ("b", SVal.vInt 2)], new := false,
          modified := false } 1).session.data =
      [("_id", SVal.vStr (uuid4String 1))]
    ∧ (save_session
        { expireAtBrowserClose := true, permanentSessionLifetime := 0 } 0
        (MoSession.destroy { store := [], cache := [] }
          { data := [("_id", SVal.vStr "Y"), ("b", SVal.vInt 2)],
            new := false, modified := false } 1).env
        (MoSession.destroy { store := [], cache := [] }
          { data := [("_id", SVal.vStr "Y"), ("b", SVal.vInt 2)],
            new := false, modified := false } 1).session).session.data =
      [("_id", SVal.vStr (uuid4String 1)),
       ("_permanent", SVal.vBool false)]
    ∧ setCookieSids
        (save_session
          { expireAtBrowserClose := true, permanentSessionLifetime := 0 } 0
          (MoSession.destroy { store := [], cache := [] }
            { data := [("_id", SVal.vStr "Y"), ("b", SVal.vInt 2)],
              new := false, modified := false } 1).env
          (MoSession.destroy { store := [], cache := [] }
            { data := [("_id", SVal.vStr "Y"), ("b", SVal.vInt 2)],
              new := false, modified := false } 1).session).trace =
      [uuid4String 1] := by
  refine ⟨rfl, ?_, ?_, ?_⟩
  · exact (c10_destroy_then_save
      { expireAtBrowserClose := true, permanentSessionLifetime := 0 }
      0 _ _ 1 rfl).1
  · exact (c10_destroy_then_save
      { expireAtBrowserClose := true, permanentSessionLifetime := 0 }
      0 _ _ 1 rfl).2.2.2.1
  · exact (c10_destroy_then_save
      { expireAtBrowserClose := true, permanentSessionLifetime := 0 }
      0 _ _ 1 rfl).2.2.2.2.2.2
